import Mathlib

/-!
Verification of the Reminder-App service (Go, Fiber + MySQL) against its
specification.  The embedding below mirrors, definition by definition, the
code in `src/handlers/handlers.go` and `src/main.go`:

* the two SQL tables (`users`, `events`) become lists of rows;
* each HTTP handler becomes a pure function from its parsed inputs and the
  database state to a `Response` (status code plus JSON body) and, for the
  mutating handlers, the new database state;
* `json.Unmarshal` results are passed in as `Except String _` (`.error e`
  is a parse failure carrying the error text);
* Go's `QueryRow ... WHERE name = ? and user_id = ?` becomes `List.find?`
  (the schema's `UNIQUE (name, user_id)` constraint makes at most one row
  match, so first-match is exact);
* MySQL constraint violations (duplicate key on `UNIQUE (name, user_id)`,
  foreign-key failure on `user_id`) are modelled explicitly; store
  infrastructure failures (lost connections etc.) are outside the model;
* Fiber buffers the response until the handler returns, so when a handler
  writes a response and then writes another one before returning, the later
  write is the one sent.  `GetEvent`'s `sql.ErrNoRows` branch does exactly
  that: it writes a 404 and falls through (no `return`) to the 500 write,
  so the function below returns the 500 response on the no-row path.
-/

/-- JSON values appearing in the service's response bodies. -/
inductive JVal where
  | s (v : String)
  | n (v : Nat)
  | ev (name date message : String)
  | tok (username : String)
  deriving DecidableEq, Repr

/-- An HTTP response: status code plus JSON object body (field list). -/
structure Response where
  code : Nat
  body : List (String × JVal)
  deriving DecidableEq, Repr

/-- Go struct `Events` from handlers.go (the parsed request body; fields
absent from the JSON unmarshal to the empty string). -/
structure Events where
  Name : String
  Date : String
  Message : String
  deriving DecidableEq, Repr

/-- A row of the `events` table:
`id INT PK, name, message, date, user_id FK -> users.id, UNIQUE(name,user_id)`. -/
structure EventRow where
  id : Nat
  name : String
  message : String
  date : String
  user_id : Nat
  deriving DecidableEq, Repr

/-- A row of the `users` table: `id INT PK, username UNIQUE, password`. -/
structure UserRow where
  id : Nat
  username : String
  password : String
  deriving DecidableEq, Repr

/-- The database state: both tables plus the `events` AUTO_INCREMENT counter. -/
structure DB where
  users : List UserRow
  events : List EventRow
  nextEventId : Nat
  deriving DecidableEq, Repr

/-- `SELECT id, name, message, date FROM events WHERE name = ? and user_id = ?`. -/
def DB.findEvent (db : DB) (name : String) (userID : Nat) : Option EventRow :=
  db.events.find? (fun r => r.name == name && r.user_id == userID)

/-- `SELECT ... FROM users WHERE username = ?`. -/
def DB.findUser (db : DB) (username : String) : Option UserRow :=
  db.users.find? (fun u => u.username == username)

/-- Result of a Go function that may panic (a failed type assertion). -/
inductive GoResult (α : Type) where
  | ok (a : α)
  | panic
  deriving DecidableEq, Repr

/-- A claim value inside `jwt.MapClaims` (a Go `map[string]interface{}`):
either a string or some other dynamic value. -/
inductive ClaimVal where
  | str (v : String)
  | other
  deriving DecidableEq, Repr

/-- The token's claims as seen through `token.Claims.(jwt.MapClaims)`:
either a claims map or some other claims type. -/
inductive ClaimsVariant where
  | mapClaims (m : List (String × ClaimVal))
  | otherClaims
  deriving DecidableEq, Repr

/-- The value stored in `c.Locals("user")` by the JWT middleware:
either a `*jwt.Token` or something else (including nothing). -/
inductive CtxLocal where
  | jwtToken (claims : ClaimsVariant)
  | notToken
  deriving DecidableEq, Repr

/-- `getUserID` from handlers.go.  The two checked type assertions
(`user.(*jwt.Token)` and `token.Claims.(jwt.MapClaims)`) return 0 on
failure; the third one, `claims["username"].(string)`, is UNCHECKED, so a
missing or non-string `username` claim panics (`GoResult.panic`).  A failed
user lookup returns 0. -/
def getUserID (lcl : CtxLocal) (db : DB) : GoResult Nat :=
  match lcl with
  | .notToken => .ok 0
  | .jwtToken claims =>
    match claims with
    | .otherClaims => .ok 0
    | .mapClaims m =>
      match m.find? (fun kv => kv.1 == "username") with
      | some (_, .str username) =>
        match db.findUser username with
        | none => .ok 0
        | some u => .ok u.id
      | some (_, .other) => .panic
      | none => .panic

/-- The error text of `sql.ErrNoRows`, as rendered by `err.Error()`. -/
def errNoRowsText : String := "sql: no rows in result set"

/-- `CreateEvent` from handlers.go.  `body` is the `json.Unmarshal` result;
`userID` is the already-resolved identity (`getUserID`).  The insert has no
application-level uniqueness pre-check: a duplicate `(name, user_id)` pair
or a dangling `user_id` surfaces as the store's constraint error (500). -/
def createEvent (body : Except String Events) (userID : Nat) (db : DB) :
    Response × DB :=
  match body with
  | .error e => (⟨400, [("status", .s "error"), ("message", .s e)]⟩, db)
  | .ok event =>
    if db.events.any (fun r => r.name == event.Name && r.user_id == userID) then
      (⟨500, [("status", .s "error"),
              ("message", .s "Error 1062: Duplicate entry")]⟩, db)
    else if db.users.all (fun u => u.id != userID) then
      (⟨500, [("status", .s "error"),
              ("message", .s "Error 1452: foreign key constraint fails")]⟩, db)
    else
      (⟨200, [("status", .s "created"),
              ("event_name", .s event.Name),
              ("message", .s "Event created successfully")]⟩,
       { db with
          events := db.events ++
            [⟨db.nextEventId, event.Name, event.Message, event.Date, userID⟩],
          nextEventId := db.nextEventId + 1 })

/-- `GetEvent` from handlers.go.  On `sql.ErrNoRows` the handler writes a
404 response but does not `return`; execution falls through to the 500
write, which overwrites the buffered 404, so the response actually sent on
the no-row path is the 500 one (both carry `err.Error()` as message). -/
def getEvent (eventName : String) (userID : Nat) (db : DB) : Response :=
  match db.findEvent eventName userID with
  | none =>
      ⟨500, [("status", .s "error"), ("message", .s errNoRowsText)]⟩
  | some r =>
      ⟨200, [("status", .s "fetched"),
             ("event_id", .n r.id),
             ("details", .ev r.name r.date r.message),
             ("message", .s "Event fetched successfully")]⟩

/-- The field-by-field merge in `UpdateEvent`: each non-empty patch field
replaces the stored value; empty fields leave it unchanged. -/
def mergeEvent (old : EventRow) (patch : Events) : Events :=
  ⟨if patch.Name != "" then patch.Name else old.name,
   if patch.Date != "" then patch.Date else old.date,
   if patch.Message != "" then patch.Message else old.message⟩

/-- `UpdateEvent` from handlers.go.  Fetches the row scoped by
`(name, user_id)` (404 `Record not found` on `sql.ErrNoRows`), merges the
patch field-by-field, then runs
`UPDATE events SET name=?,message=?,date=? WHERE id = ?` keyed by the row's
internal id.  A rename colliding with another row's `(name, user_id)` hits
the store's unique constraint (500, no change). -/
def updateEvent (eventName : String) (body : Except String Events)
    (userID : Nat) (db : DB) : Response × DB :=
  match body with
  | .error e => (⟨400, [("status", .s "error"), ("message", .s e)]⟩, db)
  | .ok newEvent =>
    match db.findEvent eventName userID with
    | none =>
        (⟨404, [("status", .s "error"), ("message", .s "Record not found")]⟩, db)
    | some old =>
      let merged := mergeEvent old newEvent
      if db.events.any (fun r =>
          r.id != old.id && r.name == merged.Name && r.user_id == old.user_id) then
        (⟨500, [("status", .s "error"),
                ("message", .s "Error 1062: Duplicate entry")]⟩, db)
      else
        (⟨200, [("status", .s "updated"),
                ("event_id", .n old.id),
                ("message", .s "Event updated successfully")]⟩,
         { db with
            events := db.events.map (fun r =>
              if r.id == old.id then
                { r with name := merged.Name, message := merged.Message,
                         date := merged.Date }
              else r) })

/-- `DeleteEvent` from handlers.go.  `DELETE FROM events WHERE name = ? and
user_id = ?`; `RowsAffected` is the number of matching rows; zero affected
rows yields the 404 `Record not found` response. -/
def deleteEvent (eventName : String) (userID : Nat) (db : DB) :
    Response × DB :=
  let affected :=
    (db.events.filter (fun r => r.name == eventName && r.user_id == userID)).length
  if affected == 0 then
    (⟨404, [("status", .s "error"), ("message", .s "Record not found")]⟩, db)
  else
    (⟨200, [("status", .s "deleted"),
            ("event_name", .s eventName),
            ("message", .s "Event deleted successfully")]⟩,
     { db with
        events := db.events.filter (fun r =>
          !(r.name == eventName && r.user_id == userID)) })

/-- `Credentials` from main.go. -/
structure Credentials where
  Username : String
  Password : String
  deriving DecidableEq, Repr

/-- `jwtSigner` from main.go: signs a token whose `username` claim is the
given username (the `exp` claim and HS256 signing succeed for any string
with a fixed key) and returns it with Fiber's default 200 status. -/
def jwtSigner (username : String) : Response :=
  ⟨200, [("token", .tok username)]⟩

/-- `login` from main.go.  `body` is the `c.BodyParser` result; `compare`
models `bcrypt.CompareHashAndPassword(storedHash, submitted)` (true =
match), supplied as a parameter since bcrypt is an external library. -/
def login (body : Except String Credentials) (db : DB)
    (compare : String → String → Bool) : Response :=
  match body with
  | .error _ => ⟨400, [("error", .s "Invalid request")]⟩
  | .ok creds =>
    match db.findUser creds.Username with
    | none =>
        ⟨400, [("status", .s "error"),
               ("message", .s "No user with the given credentials exists")]⟩
    | some u =>
      if compare u.password creds.Password then
        jwtSigner creds.Username
      else
        ⟨401, [("error", .s "Invalid username or password")]⟩

/-- The response envelope convention claimed by the spec: a `status` field
drawn from the five fixed strings, plus a `message` field. -/
def hasEnvelope (r : Response) : Bool :=
  r.body.any (fun kv =>
    kv.1 == "status" &&
    match kv.2 with
    | .s v => ["created", "updated", "fetched", "deleted", "error"].contains v
    | _ => false) &&
  r.body.any (fun kv => kv.1 == "message")

/-- Primary-key uniqueness of the `events` table: distinct rows have
distinct ids. -/
def eventIdsUnique (db : DB) : Prop :=
  db.events.Pairwise (fun r s => r.id ≠ s.id)

/-- The schema's `UNIQUE (name, user_id)` invariant on `events`. -/
def eventNamesUnique (db : DB) : Prop :=
  db.events.Pairwise (fun r s => r.name ≠ s.name ∨ r.user_id ≠ s.user_id)

/-- Sample state: one user `alice` (id 1), no events. -/
def dbEmptyAlice : DB := ⟨[⟨1, "alice", "h1"⟩], [], 1⟩

/-- Sample state: user `alice` (id 1) owning event `X` (id 1, message `M`,
date `D`). -/
def dbAliceX : DB := ⟨[⟨1, "alice", "h1"⟩], [⟨1, "X", "M", "D", 1⟩], 2⟩

/-- Sample state: users `alice` (id 1) and `bob` (id 2); `alice` owns event
`X`. -/
def dbAliceBob : DB :=
  ⟨[⟨1, "alice", "h1"⟩, ⟨2, "bob", "h2"⟩], [⟨1, "X", "M", "D", 1⟩], 2⟩

/-- Claim C1 (code bug evidence): when no event row matches — here both for
a resolved owner id of 0 and for a real user with no such event — `GetEvent`
responds 500 with the raw `sql.ErrNoRows` text, not 404: the `ErrNoRows`
branch writes the 404 response but lacks a `return`, so the 500 write
overwrites it. -/
theorem C1_getEvent_noRow_responds_500 :
    getEvent "X" 0 dbAliceX =
      ⟨500, [("status", JVal.s "error"), ("message", JVal.s errNoRowsText)]⟩ ∧
    getEvent "Y" 1 dbAliceX =
      ⟨500, [("status", JVal.s "error"), ("message", JVal.s errNoRowsText)]⟩ ∧
    (getEvent "X" 0 dbAliceX).code ≠ 404 := by
  decide

/-- Claim C2 (counterexample): a verified token whose claims map has no
`username` entry makes `getUserID` panic (Go's unchecked type assertion
`claims["username"].(string)` on a nil value), so the resolver is not total
and does not return 0 on that failure. -/
theorem C2_counterexample :
    getUserID (.jwtToken (.mapClaims [])) dbEmptyAlice = .panic ∧
    getUserID (.jwtToken (.mapClaims [])) dbEmptyAlice ≠ .ok 0 := by
  decide

/-- Claim C2 (amended): `getUserID` returns 0 when the context value is not
a token, when the claims are not a claims map, or when no user row matches
the username; a present string `username` claim resolves to the stored
user's id; but a missing or non-string `username` claim panics rather than
returning 0. -/
theorem C2_getUserID_characterization (db : DB) (m : List (String × ClaimVal)) :
    getUserID .notToken db = .ok 0 ∧
    getUserID (.jwtToken .otherClaims) db = .ok 0 ∧
    (∀ k s, m.find? (fun kv => kv.1 == "username") = some (k, .str s) →
      getUserID (.jwtToken (.mapClaims m)) db =
        .ok (match db.findUser s with | none => 0 | some u => u.id)) ∧
    (∀ k, m.find? (fun kv => kv.1 == "username") = some (k, .other) →
      getUserID (.jwtToken (.mapClaims m)) db = .panic) ∧
    (m.find? (fun kv => kv.1 == "username") = none →
      getUserID (.jwtToken (.mapClaims m)) db = .panic) := by
  refine ⟨rfl, rfl, ?_, ?_, ?_⟩
  · intro k s h
    simp only [getUserID, h]
    cases db.findUser s <;> rfl
  · intro k h
    simp [getUserID, h]
  · intro h
    simp [getUserID, h]

/-- Claim C2 witness: concrete successful resolution of `alice` to id 1
through the characterization theorem. -/
theorem C2_getUserID_characterization_witness :
    getUserID (.jwtToken (.mapClaims [("username", .str "alice")]))
      dbEmptyAlice = .ok 1 := by
  have h :=
    (C2_getUserID_characterization dbEmptyAlice
      [("username", .str "alice")]).2.2.1 "username" "alice" (by decide)
  rw [h]
  decide

/-- Claim C5 (counterexample): two responses the system produces that carry
neither a `status` nor a `message` field — login's bad-body response
`{"error": "Invalid request"}` and `jwtSigner`'s success response
`{"token": ...}`. -/
theorem C5_counterexample :
    login (.error "bad json") dbEmptyAlice (fun _ _ => false) =
      ⟨400, [("error", JVal.s "Invalid request")]⟩ ∧
    hasEnvelope (login (.error "bad json") dbEmptyAlice (fun _ _ => false))
      = false ∧
    hasEnvelope (jwtSigner "alice") = false := by
  decide

/-- Claim C5 (amended): every response of the four event handlers — on
every input, success and failure paths alike — carries a `status` field
drawn from created/updated/fetched/deleted/error plus a `message` field;
the auth endpoints do not share this envelope. -/
theorem C5_event_handler_envelope (name : String) (body : Except String Events)
    (uid : Nat) (db : DB) :
    hasEnvelope (createEvent body uid db).1 = true ∧
    hasEnvelope (getEvent name uid db) = true ∧
    hasEnvelope (updateEvent name body uid db).1 = true ∧
    hasEnvelope (deleteEvent name uid db).1 = true := by
  refine ⟨?_, ?_, ?_, ?_⟩
  · cases body with
    | error e => simp [createEvent, hasEnvelope]
    | ok ev =>
      simp only [createEvent]
      split
      · simp [hasEnvelope]
      · split <;> simp [hasEnvelope]
  · cases h : db.findEvent name uid <;> simp [getEvent, h, hasEnvelope]
  · cases body with
    | error e => simp [updateEvent, hasEnvelope]
    | ok ev =>
      simp only [updateEvent]
      cases h : db.findEvent name uid
      · simp [h, hasEnvelope]
      · simp only [h]
        split <;> simp [hasEnvelope]
  · simp only [deleteEvent]
    split <;> simp [hasEnvelope]

/-- Claim C7 (code bug evidence): deleting `X` as its owner removes exactly
the matching row and responds 200; deleting a name with no matching row
responds 404; but the subsequent Get of the deleted pair responds 500 (the
`GetEvent` missing-return bug), not the 404 the claim and spec state. -/
theorem C7_delete_then_get_evaluation :
    deleteEvent "X" 1 dbAliceX =
      (⟨200, [("status", JVal.s "deleted"), ("event_name", JVal.s "X"),
              ("message", JVal.s "Event deleted successfully")]⟩,
       ⟨[⟨1, "alice", "h1"⟩], [], 2⟩) ∧
    (deleteEvent "Y" 1 dbAliceX).1.code = 404 ∧
    (getEvent "X" 1 (deleteEvent "X" 1 dbAliceX).2).code = 500 ∧
    (getEvent "X" 1 (deleteEvent "X" 1 dbAliceX).2).code ≠ 404 := by
  decide

/-- Helper: mapping a function that fixes every member leaves a list
unchanged. -/
theorem list_map_self {α : Type} (l : List α) (f : α → α)
    (h : ∀ a ∈ l, f a = a) : l.map f = l := by
  rw [List.map_congr_left h]
  exact List.map_id' l

/-- Claim C3: for an existing event scoped by `(name, userID)`, Update
replaces each of name/message/date with the patch value exactly when that
patch field is non-empty, leaves empty fields unchanged, and writes the
merged row back keyed by the row's internal id (all rows with that id are
rewritten; every other row is untouched), then responds 200. -/
theorem C3_update_merge (db : DB) (name : String) (uid : Nat) (patch : Events)
    (old : EventRow)
    (hfind : db.findEvent name uid = some old)
    (hnoconf : db.events.any (fun r =>
        r.id != old.id && r.name == (mergeEvent old patch).Name &&
        r.user_id == old.user_id) = false) :
    updateEvent name (.ok patch) uid db =
      (⟨200, [("status", JVal.s "updated"), ("event_id", JVal.n old.id),
              ("message", JVal.s "Event updated successfully")]⟩,
       { db with events := db.events.map (fun r =>
          if r.id == old.id then
            { r with
                name := if patch.Name != "" then patch.Name else old.name,
                message := if patch.Message != "" then patch.Message else old.message,
                date := if patch.Date != "" then patch.Date else old.date }
          else r) }) := by
  simp only [updateEvent, hfind]
  rw [hnoconf]
  simp [mergeEvent]

/-- Claim C3 witness: renaming `X` to `Y` with a new message and an empty
date keeps the date, persists the rename under the same internal id 1, and
responds 200. -/
theorem C3_update_merge_witness :
    updateEvent "X" (.ok ⟨"Y", "", "M2"⟩) 1 dbAliceX =
      (⟨200, [("status", JVal.s "updated"), ("event_id", JVal.n 1),
              ("message", JVal.s "Event updated successfully")]⟩,
       ⟨[⟨1, "alice", "h1"⟩], [⟨1, "Y", "M2", "D", 1⟩], 2⟩) := by
  have h := C3_update_merge dbAliceX "X" 1 ⟨"Y", "", "M2"⟩ ⟨1, "X", "M", "D", 1⟩
    (by decide) (by decide)
  exact h.trans (by decide)

/-- Claim C4 (counterexample): a successful update that changes all three
fields responds with only `status`, `event_id` and the fixed text
`Event updated successfully`; none of the merged name/date/message values
(`N2`/`D2`/`M2`, all persisted to the store) appear anywhere in the body. -/
theorem C4_counterexample :
    (updateEvent "X" (.ok ⟨"N2", "D2", "M2"⟩) 1 dbAliceX).1.body =
      [("status", JVal.s "updated"), ("event_id", JVal.n 1),
       ("message", JVal.s "Event updated successfully")] ∧
    (updateEvent "X" (.ok ⟨"N2", "D2", "M2"⟩) 1 dbAliceX).2.events =
      [⟨1, "N2", "M2", "D2", 1⟩] ∧
    ((updateEvent "X" (.ok ⟨"N2", "D2", "M2"⟩) 1 dbAliceX).1.body.all
      (fun kv => kv.2 != JVal.s "N2" && kv.2 != JVal.s "D2" &&
        kv.2 != JVal.s "M2")) = true := by
  decide

/-- Claim C4 (amended): on every successful Update the response is exactly
status 200 with body `status = "updated"`, `event_id` = the row's internal
id, and the fixed message `Event updated successfully`; the merged event
state is persisted but not echoed in the response. -/
theorem C4_update_success_response (db : DB) (name : String) (uid : Nat)
    (patch : Events) (old : EventRow)
    (hfind : db.findEvent name uid = some old)
    (hnoconf : db.events.any (fun r =>
        r.id != old.id && r.name == (mergeEvent old patch).Name &&
        r.user_id == old.user_id) = false) :
    (updateEvent name (.ok patch) uid db).1 =
      ⟨200, [("status", JVal.s "updated"), ("event_id", JVal.n old.id),
             ("message", JVal.s "Event updated successfully")]⟩ := by
  simp only [updateEvent, hfind]
  rw [hnoconf]
  simp

/-- Claim C4 witness: a concrete successful update responding with the
three-field body. -/
theorem C4_update_success_response_witness :
    (updateEvent "X" (.ok ⟨"", "D2", ""⟩) 1 dbAliceX).1 =
      ⟨200, [("status", JVal.s "updated"), ("event_id", JVal.n 1),
             ("message", JVal.s "Event updated successfully")]⟩ :=
  C4_update_success_response dbAliceX "X" 1 ⟨"", "D2", ""⟩ ⟨1, "X", "M", "D", 1⟩
    (by decide) (by decide)

/-- Claim C6: login with an unknown username yields the 400 "no such user"
error; with a known username but failing bcrypt comparison yields 401; with
a succeeding comparison yields a signed token whose `username` claim equals
the submitted username. -/
theorem C6_login_outcomes (creds : Credentials) (db : DB)
    (compare : String → String → Bool) :
    (db.findUser creds.Username = none →
      login (.ok creds) db compare =
        ⟨400, [("status", JVal.s "error"),
               ("message", JVal.s "No user with the given credentials exists")]⟩) ∧
    (∀ u, db.findUser creds.Username = some u →
      compare u.password creds.Password = false →
      login (.ok creds) db compare =
        ⟨401, [("error", JVal.s "Invalid username or password")]⟩) ∧
    (∀ u, db.findUser creds.Username = some u →
      compare u.password creds.Password = true →
      login (.ok creds) db compare =
        ⟨200, [("token", JVal.tok creds.Username)]⟩) := by
  refine ⟨?_, ?_, ?_⟩
  · intro h
    simp [login, h]
  · intro u h hc
    simp [login, jwtSigner, h, hc]
  · intro u h hc
    simp [login, jwtSigner, h, hc]

/-- Claim C6 witness: a concrete successful login for `alice` returning a
token whose username claim is `alice`. -/
theorem C6_login_outcomes_witness :
    login (.ok ⟨"alice", "pw"⟩) dbEmptyAlice
      (fun storedHash submitted => storedHash == "h1" && submitted == "pw") =
      ⟨200, [("token", JVal.tok "alice")]⟩ :=
  (C6_login_outcomes ⟨"alice", "pw"⟩ dbEmptyAlice
    (fun storedHash submitted => storedHash == "h1" && submitted == "pw")).2.2
    ⟨1, "alice", "h1"⟩ (by decide) (by decide)

/-- Claim C9: for an authenticated user that exists in the store and has no
event named `X` yet, a successful Create of `(X, D, M)` followed
immediately by Get of `X` for the same user returns the event with date `D`
and message `M` unchanged. -/
theorem C9_create_get_roundtrip (db : DB) (uid : Nat) (X D M : String)
    (hUser : db.users.any (fun u => u.id == uid) = true)
    (hNoDup : db.events.any (fun r => r.name == X && r.user_id == uid) = false) :
    ((createEvent (.ok ⟨X, D, M⟩) uid db).1).code = 200 ∧
    getEvent X uid (createEvent (.ok ⟨X, D, M⟩) uid db).2 =
      ⟨200, [("status", JVal.s "fetched"),
             ("event_id", JVal.n db.nextEventId),
             ("details", JVal.ev X D M),
             ("message", JVal.s "Event fetched successfully")]⟩ := by
  have hAll : db.users.all (fun u => u.id != uid) = false := by
    rcases List.any_eq_true.mp hUser with ⟨u, hu, hid⟩
    by_contra hall
    rw [Bool.not_eq_false, List.all_eq_true] at hall
    have h2 := hall u hu
    simp only [bne_iff_ne, ne_eq, beq_iff_eq] at h2 hid
    exact h2 hid
  have hnone : db.events.find? (fun r => r.name == X && r.user_id == uid) = none := by
    rw [List.find?_eq_none]
    intro r hr hp
    have h3 : db.events.any (fun r => r.name == X && r.user_id == uid) = true :=
      List.any_eq_true.mpr ⟨r, hr, hp⟩
    rw [hNoDup] at h3
    exact Bool.false_ne_true h3
  have hcreate : createEvent (.ok ⟨X, D, M⟩) uid db =
      (⟨200, [("status", JVal.s "created"), ("event_name", JVal.s X),
              ("message", JVal.s "Event created successfully")]⟩,
       { db with events := db.events ++ [⟨db.nextEventId, X, M, D, uid⟩],
                 nextEventId := db.nextEventId + 1 }) := by
    simp only [createEvent]
    rw [hNoDup, hAll]
    simp
  rw [hcreate]
  refine ⟨rfl, ?_⟩
  simp only [getEvent, DB.findEvent]
  rw [List.find?_append, hnone]
  simp

/-- Claim C9 witness: the concrete round-trip for `alice` creating and then
fetching event `X`. -/
theorem C9_create_get_roundtrip_witness :
    ((createEvent (.ok ⟨"X", "D", "M"⟩) 1 dbEmptyAlice).1).code = 200 ∧
    getEvent "X" 1 (createEvent (.ok ⟨"X", "D", "M"⟩) 1 dbEmptyAlice).2 =
      ⟨200, [("status", JVal.s "fetched"), ("event_id", JVal.n 1),
             ("details", JVal.ev "X" "D" "M"),
             ("message", JVal.s "Event fetched successfully")]⟩ :=
  C9_create_get_roundtrip dbEmptyAlice 1 "X" "D" "M" (by decide) (by decide)

/-- Claim C8 (counterexample): user `bob` (id 2) fetching event `X` created
by `alice` does not get a 404 NotFound — the response is the 500 produced
by `GetEvent`'s missing-return bug — though no event data (`details`) is
leaked. -/
theorem C8_counterexample :
    (getEvent "X" 2 dbAliceBob).code = 500 ∧
    (getEvent "X" 2 dbAliceBob).code ≠ 404 ∧
    ((getEvent "X" 2 dbAliceBob).body.all (fun kv => kv.1 != "details")) = true := by
  decide

/-- Claim C8 (amended): ownership isolation — a Get only ever returns the
data of a row matching both the name and the resolved user id, and Update
and Delete never remove or modify any row owned by a different user; a
cross-user fetch yields an error response (a 500, by the missing-return
bug, rather than 404) and never the event. -/
theorem C8_ownership_isolation (db : DB) (uid : Nat) (name : String)
    (body : Except String Events)
    (hids : eventIdsUnique db) :
    ((getEvent name uid db).code = 200 →
      ∃ r ∈ db.events, r.name = name ∧ r.user_id = uid ∧
        ("details", JVal.ev r.name r.date r.message) ∈ (getEvent name uid db).body) ∧
    (∀ r ∈ db.events, r.user_id ≠ uid → r ∈ (updateEvent name body uid db).2.events) ∧
    (∀ r ∈ db.events, r.user_id ≠ uid → r ∈ (deleteEvent name uid db).2.events) := by
  have hids' : List.Pairwise (fun a b : EventRow => a.id ≠ b.id) db.events := hids
  have hsymid : Symmetric (fun a b : EventRow => a.id ≠ b.id) :=
    fun a b h => Ne.symm h
  refine ⟨?_, ?_, ?_⟩
  · intro h200
    cases h : db.findEvent name uid with
    | none => simp [getEvent, h] at h200
    | some r =>
      have h' : db.events.find? (fun s => s.name == name && s.user_id == uid)
          = some r := h
      have hp := List.find?_some h'
      simp only [Bool.and_eq_true, beq_iff_eq] at hp
      refine ⟨r, List.mem_of_find?_eq_some h', hp.1, hp.2, ?_⟩
      simp [getEvent, h]
  · intro r hr hneq
    cases body with
    | error e => simpa [updateEvent] using hr
    | ok ev =>
      cases h : db.findEvent name uid with
      | none => simpa [updateEvent, h] using hr
      | some old =>
        have h' : db.events.find? (fun s => s.name == name && s.user_id == uid)
            = some old := h
        have hpold := List.find?_some h'
        simp only [Bool.and_eq_true, beq_iff_eq] at hpold
        have holdmem := List.mem_of_find?_eq_some h'
        have hrne : r ≠ old := by
          intro he
          exact hneq (by rw [he, hpold.2])
        have hidne : r.id ≠ old.id :=
          (List.Pairwise.forall hsymid hids') hr holdmem hrne
        simp only [updateEvent, h]
        split
        · exact hr
        · exact List.mem_map.mpr ⟨r, hr, by simp [hidne]⟩
  · intro r hr hneq
    simp only [deleteEvent]
    split
    · exact hr
    · exact List.mem_filter.mpr ⟨hr, by simp [hneq]⟩

/-- Claim C8 witness: deleting `X` as `bob` leaves `alice`'s row `X`
untouched. -/
theorem C8_ownership_isolation_witness :
    (⟨1, "X", "M", "D", 1⟩ : EventRow) ∈ (deleteEvent "X" 2 dbAliceBob).2.events :=
  (C8_ownership_isolation dbAliceBob 2 "X" (.ok ⟨"", "", ""⟩)
    (by simp [eventIdsUnique, dbAliceBob])).2.2
    ⟨1, "X", "M", "D", 1⟩ (by decide) (by decide)

/-- Claim C10: an Update whose parsed patch has all three fields empty
leaves the database state exactly unchanged (the row is written back with
its prior name, message and date) yet still responds 200 with status
`updated` and the row's id — an empty patch is not an error or a distinct
no-op. -/
theorem C10_empty_patch_update_identity (db : DB) (name : String) (uid : Nat)
    (old : EventRow)
    (hids : eventIdsUnique db)
    (hnames : eventNamesUnique db)
    (hfind : db.findEvent name uid = some old) :
    updateEvent name (.ok ⟨"", "", ""⟩) uid db =
      (⟨200, [("status", JVal.s "updated"), ("event_id", JVal.n old.id),
              ("message", JVal.s "Event updated successfully")]⟩, db) := by
  have hids' : List.Pairwise (fun a b : EventRow => a.id ≠ b.id) db.events := hids
  have hnames' : List.Pairwise
      (fun a b : EventRow => a.name ≠ b.name ∨ a.user_id ≠ b.user_id)
      db.events := hnames
  have hsymid : Symmetric (fun a b : EventRow => a.id ≠ b.id) :=
    fun a b h => Ne.symm h
  have hsymnm : Symmetric
      (fun a b : EventRow => a.name ≠ b.name ∨ a.user_id ≠ b.user_id) :=
    fun a b h => h.imp Ne.symm Ne.symm
  have h' : db.events.find? (fun r => r.name == name && r.user_id == uid)
      = some old := hfind
  have holdmem := List.mem_of_find?_eq_some h'
  have hconf : db.events.any (fun r =>
      r.id != old.id && r.name == (mergeEvent old ⟨"", "", ""⟩).Name &&
      r.user_id == old.user_id) = false := by
    by_contra hany
    rw [Bool.not_eq_false, List.any_eq_true] at hany
    obtain ⟨r, hr, hp⟩ := hany
    simp [mergeEvent] at hp
    obtain ⟨⟨h1, h2⟩, h3⟩ := hp
    have hrne : r ≠ old := fun he => h1 (by rw [he])
    have hro := (List.Pairwise.forall hsymnm hnames') hr holdmem hrne
    rcases hro with hn | hu
    · exact hn h2
    · exact hu h3
  simp only [updateEvent, hfind]
  rw [hconf]
  have hmap : db.events.map (fun r =>
      if r.id == old.id then
        { r with name := (mergeEvent old ⟨"", "", ""⟩).Name,
                 message := (mergeEvent old ⟨"", "", ""⟩).Message,
                 date := (mergeEvent old ⟨"", "", ""⟩).Date }
      else r) = db.events := by
    refine list_map_self _ _ ?_
    intro r hr
    by_cases hid : r.id = old.id
    · have hre : r = old := by
        by_contra hne
        exact (List.Pairwise.forall hsymid hids') hr holdmem hne hid
      subst hre
      simp [mergeEvent]
    · simp [hid]
  simp only [Bool.false_eq_true, if_false, hmap]

/-- Claim C10 witness: the concrete all-empty patch on `alice`'s event `X`
responds 200 `updated` and leaves the store identical. -/
theorem C10_empty_patch_update_identity_witness :
    updateEvent "X" (.ok ⟨"", "", ""⟩) 1 dbAliceX =
      (⟨200, [("status", JVal.s "updated"), ("event_id", JVal.n 1),
              ("message", JVal.s "Event updated successfully")]⟩, dbAliceX) :=
  C10_empty_patch_update_identity dbAliceX "X" 1 ⟨1, "X", "M", "D", 1⟩
    (by simp [eventIdsUnique, dbAliceX]) (by simp [eventNamesUnique, dbAliceX]) (by decide)
